import Mathlib

/-!
Shallow embedding of the prompt/label pipeline and the training-driver glue
of `finetune-1gpu.py`.

The tokenizer and the prompt template are external collaborators.  The
tokenizer is modelled as a function from text to the raw token-id sequence;
the Hugging Face call with `truncation=True, max_length=cutoff_len,
padding=False` returns the first `cutoff_len` of those ids together with an
all-ones attention mask of the same length, which we materialise
explicitly.  The prompter is modelled as a function from
(instruction, input, optional output) to the rendered prompt string.
Fallible code (the `[-1]` index on a possibly-empty list) returns `Option`.
-/

/-- External tokenizer collaborator: raw encoding plus the end-of-sequence
token id.  Token ids are integers; label sequences may also hold the ignore
sentinel -100. -/
structure Tokenizer where
  encode : String → List Int
  eos_token_id : Int

/-- The dict produced by the inner `tokenize` closure of `load_data`:
`input_ids`, `attention_mask` and `labels`, each a plain integer list. -/
structure TokenizedResult where
  input_ids : List Int
  attention_mask : List Int
  labels : List Int
deriving DecidableEq

/-- One dataset record, as accessed by `generate_and_tokenize_prompt`. -/
structure DataPoint where
  instruction : String
  input : String
  output : String
deriving DecidableEq

/-- The inner `tokenize` closure (`finetune-1gpu.py`, lines 85-103).
The Hugging Face tokenizer call yields the encoded ids truncated to
`cutoff_len` and a matching all-ones attention mask.  The Python code then
unconditionally reads `result["input_ids"][-1]`; on an empty id list that
access raises, which we model as `none`.  Otherwise, when the last id is
not the eos id, the length is strictly below `cutoff_len` and
`add_eos_token` is set, the eos id is appended with attention value 1;
finally `labels` is a copy of `input_ids`. -/
def tokenize (tk : Tokenizer) (cutoff_len : Nat) (prompt : String)
    (add_eos_token : Bool) : Option TokenizedResult :=
  match ((tk.encode prompt).take cutoff_len).getLast? with
  | none => none
  | some last =>
    if last ≠ tk.eos_token_id ∧ ((tk.encode prompt).take cutoff_len).length < cutoff_len
        ∧ add_eos_token = true then
      some { input_ids := (tk.encode prompt).take cutoff_len ++ [tk.eos_token_id],
             attention_mask :=
               List.replicate ((tk.encode prompt).take cutoff_len).length 1 ++ [1],
             labels := (tk.encode prompt).take cutoff_len ++ [tk.eos_token_id] }
    else
      some { input_ids := (tk.encode prompt).take cutoff_len,
             attention_mask := List.replicate ((tk.encode prompt).take cutoff_len).length 1,
             labels := (tk.encode prompt).take cutoff_len }

/-- Whether the `tokenize` closure actually appends the eos token: the last
truncated id exists and differs from the eos id, the truncated length is
strictly below `cutoff_len`, and the `add_eos_token` flag is set. -/
def eos_appended (tk : Tokenizer) (cutoff_len : Nat) (prompt : String)
    (add_eos_token : Bool) : Bool :=
  match ((tk.encode prompt).take cutoff_len).getLast? with
  | none => false
  | some last =>
    decide (last ≠ tk.eos_token_id ∧
      ((tk.encode prompt).take cutoff_len).length < cutoff_len ∧ add_eos_token = true)

/-- The `user_prompt_len` computation (`finetune-1gpu.py`, lines 119-122):
the length of the tokenized user prompt, minus one exactly when the
`add_eos_token` flag is set. -/
def user_prompt_len (tokenized_user : TokenizedResult) (add_eos_token : Bool) : Nat :=
  if add_eos_token = true then tokenized_user.input_ids.length - 1
  else tokenized_user.input_ids.length

/-- The `generate_and_tokenize_prompt` closure (`finetune-1gpu.py`,
lines 105-129).  The full prompt is tokenized with the eos flag hard-wired
to `true` (the Python call relies on the closure default).  When
`train_on_inputs` is false, the instruction-only user prompt is tokenized
with the `add_eos_token` flag of the caller and the first `user_prompt_len`
labels are overwritten with the ignore sentinel via
`[-100] * n ++ labels[n:]`. -/
def generate_and_tokenize_prompt
    (prompter : String → String → Option String → String)
    (tk : Tokenizer) (cutoff_len : Nat)
    (train_on_inputs add_eos_token : Bool)
    (dp : DataPoint) : Option TokenizedResult :=
  match tokenize tk cutoff_len
      (prompter dp.instruction dp.input (some dp.output)) true with
  | none => none
  | some tokenized_full =>
    if train_on_inputs = true then some tokenized_full
    else
      match tokenize tk cutoff_len
          (prompter dp.instruction dp.input none) add_eos_token with
      | none => none
      | some tokenized_user =>
        some { tokenized_full with
               labels :=
                 List.replicate (user_prompt_len tokenized_user add_eos_token) (-100)
                   ++ tokenized_full.labels.drop
                        (user_prompt_len tokenized_user add_eos_token) }

/-- The `select_samples_by_len` function (`finetune-1gpu.py`, lines
148-153): keep the samples whose `input_ids` length lies between
`min_length` and `max_length` inclusive. -/
def select_samples_by_len (dataset : List TokenizedResult)
    (min_length max_length : Nat) : List TokenizedResult :=
  dataset.filter fun sample =>
    decide (min_length ≤ sample.input_ids.length ∧
            sample.input_ids.length ≤ max_length)

/-- The gradient-accumulation computation of `train` (`finetune-1gpu.py`,
lines 247-257): integer division of `batch_size` by `micro_batch_size`,
floor-divided again by `world_size` when the run is multi-process
(`world_size != 1`). -/
def gradient_accumulation_steps (batch_size micro_batch_size world_size : Nat) : Nat :=
  if world_size ≠ 1 then batch_size / micro_batch_size / world_size
  else batch_size / micro_batch_size

/-- Outcome of the checkpoint-resume block of `train` (`finetune-1gpu.py`,
lines 298-316): which weight file, if any, was loaded into the adapter,
whether the missing-checkpoint message was printed, and whether the
trainer is still asked to resume its own state. -/
structure ResumeOutcome where
  loadedFrom : Option String
  reportedMissing : Bool
  trainerResumes : Bool
deriving DecidableEq

/-- The checkpoint-resume block of `train` (`finetune-1gpu.py`, lines
298-316), with the file system abstracted as an existence predicate.  It
first looks for `pytorch_model.bin` under the resume path; failing that it
falls back to `adapter_model.bin` and clears the trainer-resume flag; if
that is also absent it only prints that the checkpoint was not found. -/
def checkpoint_resume (pathExists : String → Bool)
    (resume_path : String) : ResumeOutcome :=
  if pathExists (resume_path ++ "/pytorch_model.bin") = true then
    { loadedFrom := some (resume_path ++ "/pytorch_model.bin"),
      reportedMissing := false, trainerResumes := true }
  else if pathExists (resume_path ++ "/adapter_model.bin") = true then
    { loadedFrom := some (resume_path ++ "/adapter_model.bin"),
      reportedMissing := false, trainerResumes := false }
  else
    { loadedFrom := none, reportedMissing := true, trainerResumes := false }

/-- A concrete tokenizer for witnesses and counterexamples: every character
becomes token id 5, and the eos id is 2. -/
def exTokenizer : Tokenizer :=
  { encode := fun s => List.replicate s.length 5, eos_token_id := 2 }

/-- A concrete prompter for witnesses and counterexamples: the rendered
full prompt is instruction ++ input ++ output, and the instruction-only
rendering appends a five-character response marker instead of the
output. -/
def exPrompter (instruction inp : String) (out : Option String) : String :=
  match out with
  | some o => instruction ++ inp ++ o
  | none => instruction ++ inp ++ "#####"

/-- A concrete record with non-empty output. -/
def exDataPoint : DataPoint :=
  { instruction := "ab", input := "", output := "c" }

/-- Helper: `tokenize` fails exactly when the truncated encoding is empty,
independently of the `add_eos_token` flag. -/
theorem tokenize_eq_none_iff (tk : Tokenizer) (c : Nat) (p : String) (a : Bool) :
    tokenize tk c p a = none ↔ (tk.encode p).take c = [] := by
  unfold tokenize
  rcases hl : ((tk.encode p).take c).getLast? with _ | last
  · rw [List.getLast?_eq_none_iff] at hl
    simp [hl]
  · have hne : (tk.encode p).take c ≠ [] := by
      intro h0
      rw [h0] at hl
      simp at hl
    simp only []
    split <;> simp [hne]

/-- Helper: full case analysis of a successful `tokenize` call.  The
truncated encoding is non-empty, and the result either carries the
appended eos token (when `eos_appended` holds, in which case the truncated
length was strictly below the cutoff) or is the bare truncation. -/
theorem tokenize_eq_some_cases (tk : Tokenizer) (c : Nat) (p : String) (a : Bool)
    (r : TokenizedResult) (h : tokenize tk c p a = some r) :
    (tk.encode p).take c ≠ [] ∧
    ((eos_appended tk c p a = true ∧
        ((tk.encode p).take c).length < c ∧
        r.input_ids = (tk.encode p).take c ++ [tk.eos_token_id] ∧
        r.attention_mask = List.replicate ((tk.encode p).take c).length 1 ++ [1] ∧
        r.labels = r.input_ids) ∨
      (eos_appended tk c p a = false ∧
        r.input_ids = (tk.encode p).take c ∧
        r.attention_mask = List.replicate ((tk.encode p).take c).length 1 ∧
        r.labels = r.input_ids)) := by
  unfold tokenize at h
  rcases hl : ((tk.encode p).take c).getLast? with _ | last
  · rw [hl] at h
    simp at h
  · have hne : (tk.encode p).take c ≠ [] := by
      intro h0
      rw [h0] at hl
      simp at hl
    rw [hl] at h
    simp only [] at h
    refine ⟨hne, ?_⟩
    unfold eos_appended
    rw [hl]
    simp only []
    by_cases hc : last ≠ tk.eos_token_id ∧ ((tk.encode p).take c).length < c ∧ a = true
    · rw [if_pos hc] at h
      injection h with h
      subst h
      exact Or.inl ⟨decide_eq_true hc, hc.2.1, rfl, rfl, rfl⟩
    · rw [if_neg hc] at h
      injection h with h
      subst h
      exact Or.inr ⟨decide_eq_false hc, rfl, rfl, rfl⟩

/-- Helper: full case analysis of a successful `generate_and_tokenize_prompt`
call.  The full prompt tokenization succeeded with the eos flag hard-wired
to `true`; the result is either that tokenization unchanged (when
`train_on_inputs` is set) or, otherwise, the same ids and mask with the
first `user_prompt_len` labels replaced by the ignore sentinel. -/
theorem generate_eq_some_cases
    (prompter : String → String → Option String → String)
    (tk : Tokenizer) (c : Nat) (toi a : Bool) (dp : DataPoint) (r : TokenizedResult)
    (h : generate_and_tokenize_prompt prompter tk c toi a dp = some r) :
    ∃ tokenized_full,
      tokenize tk c (prompter dp.instruction dp.input (some dp.output)) true =
        some tokenized_full ∧
      ((toi = true ∧ r = tokenized_full) ∨
       (toi = false ∧ ∃ tokenized_user,
          tokenize tk c (prompter dp.instruction dp.input none) a = some tokenized_user ∧
          r = { tokenized_full with
                labels := List.replicate (user_prompt_len tokenized_user a) (-100)
                  ++ tokenized_full.labels.drop (user_prompt_len tokenized_user a) })) := by
  unfold generate_and_tokenize_prompt at h
  rcases hf : tokenize tk c (prompter dp.instruction dp.input (some dp.output)) true
    with _ | tf
  · rw [hf] at h
    simp at h
  · rw [hf] at h
    simp only [] at h
    refine ⟨tf, rfl, ?_⟩
    by_cases ht : toi = true
    · rw [if_pos ht] at h
      injection h with h
      exact Or.inl ⟨ht, h.symm⟩
    · have ht' : toi = false := by
        cases toi
        · rfl
        · exact absurd rfl ht
      rw [if_neg ht] at h
      rcases hu : tokenize tk c (prompter dp.instruction dp.input none) a with _ | tu
      · rw [hu] at h
        simp at h
      · rw [hu] at h
        simp only [] at h
        injection h with h
        exact Or.inr ⟨ht', tu, rfl, h.symm⟩

/-- Helper: constructing a successful masking run from its two successful
tokenizations. -/
theorem generate_masked_eq
    (prompter : String → String → Option String → String)
    (tk : Tokenizer) (c : Nat) (a : Bool) (dp : DataPoint) (tf tu : TokenizedResult)
    (hf : tokenize tk c (prompter dp.instruction dp.input (some dp.output)) true = some tf)
    (hu : tokenize tk c (prompter dp.instruction dp.input none) a = some tu) :
    generate_and_tokenize_prompt prompter tk c false a dp =
      some { tf with labels := List.replicate (user_prompt_len tu a) (-100)
               ++ tf.labels.drop (user_prompt_len tu a) } := by
  unfold generate_and_tokenize_prompt
  rw [hf]
  simp only []
  rw [if_neg (by decide : ¬(false = true)), hu]

/-- Helper: counting members of a filtered list. -/
theorem count_filter_eq (l : List TokenizedResult) (p : TokenizedResult → Bool)
    (a : TokenizedResult) :
    (l.filter p).count a = if p a = true then l.count a else 0 := by
  by_cases hp : p a = true
  · rw [if_pos hp]
    exact List.count_filter hp
  · rw [if_neg hp]
    rw [List.count_eq_zero]
    intro hmem
    exact hp (List.mem_filter.mp hmem).2

/-- Helper: basic shape facts of any successful `tokenize` call. -/
theorem tokenize_basic (tk : Tokenizer) (c : Nat) (p : String) (a : Bool)
    (r : TokenizedResult) (h : tokenize tk c p a = some r) :
    r.labels = r.input_ids ∧ r.attention_mask.length = r.input_ids.length ∧
    r.input_ids.length ≤ c := by
  obtain ⟨hne, hc⟩ := tokenize_eq_some_cases tk c p a r h
  rcases hc with ⟨_, hlt, hids, hmask, hlab⟩ | ⟨_, hids, hmask, hlab⟩
  · refine ⟨hlab, ?_, ?_⟩
    · rw [hmask, hids]
      simp
    · rw [hids]
      rw [List.length_append]
      simp only [List.length_take, List.length_singleton]
      simp only [List.length_take] at hlt
      omega
  · refine ⟨hlab, ?_, ?_⟩
    · rw [hmask, hids]
      simp
    · rw [hids]
      simp only [List.length_take]
      omega

/-- Helper: once the last truncated token is known, `eos_appended` unfolds to
the three-way condition of the source. -/
theorem eos_appended_iff (tk : Tokenizer) (c : Nat) (p : String) (a : Bool) (last : Int)
    (hl : ((tk.encode p).take c).getLast? = some last) :
    eos_appended tk c p a = true ↔
      (last ≠ tk.eos_token_id ∧ ((tk.encode p).take c).length < c ∧ a = true) := by
  unfold eos_appended
  rw [hl]
  simp only []
  exact ⟨of_decide_eq_true, decide_eq_true⟩

/-- Concrete tokenization of the full prompt "abc" at cutoff 10 with the
eos flag set: three character tokens plus the appended eos. -/
def exFullTok : TokenizedResult :=
  { input_ids := [5, 5, 5, 2], attention_mask := [1, 1, 1, 1],
    labels := [5, 5, 5, 2] }

/-- Concrete tokenization of the user prompt "ab#####" at cutoff 10 with the
eos flag clear: seven character tokens, nothing appended. -/
def exUserTok : TokenizedResult :=
  { input_ids := List.replicate 7 5, attention_mask := List.replicate 7 1,
    labels := List.replicate 7 5 }

/-- Concrete tokenization of "abc" at cutoff 3: exactly at the cutoff, so no
eos is appended even with the flag set. -/
def exCutoffTok : TokenizedResult :=
  { input_ids := [5, 5, 5], attention_mask := [1, 1, 1], labels := [5, 5, 5] }

/-- The divergent-masking outcome for `exDataPoint`: the user-prompt length 7
exceeds the four full-prompt tokens, so every label is the ignore sentinel
and the label list is longer than `input_ids`. -/
def exDivergentResult : TokenizedResult :=
  { input_ids := [5, 5, 5, 2], attention_mask := [1, 1, 1, 1],
    labels := List.replicate 7 (-100) }

/-- A file system in which no path exists. -/
def exNoFiles : String → Bool := fun _ => false

/-- Claim C5: `tokenize(text, cutoff_len, add_eos)` truncates to at most
`cutoff_len` tokens, and appends the eos token id with attention value 1 if
and only if `add_eos` is true, the last token is not already the eos token,
and the truncated sequence is strictly shorter than `cutoff_len`; labels
are a copy of `input_ids`.  In particular an input tokenizing to exactly
`cutoff_len` tokens gets no eos appended (the strict-shortness conjunct
fails, so the second branch applies). -/
theorem C5_tokenize_truncation_and_eos
    (tk : Tokenizer) (c : Nat) (p : String) (a : Bool) (r : TokenizedResult)
    (h : tokenize tk c p a = some r) :
    r.labels = r.input_ids ∧
    r.attention_mask.length = r.input_ids.length ∧
    r.input_ids.length ≤ c ∧
    (∀ last, ((tk.encode p).take c).getLast? = some last →
      ((a = true ∧ last ≠ tk.eos_token_id ∧ ((tk.encode p).take c).length < c) →
        r.input_ids = (tk.encode p).take c ++ [tk.eos_token_id] ∧
        r.attention_mask = List.replicate ((tk.encode p).take c).length 1 ++ [1]) ∧
      (¬(a = true ∧ last ≠ tk.eos_token_id ∧ ((tk.encode p).take c).length < c) →
        r.input_ids = (tk.encode p).take c ∧
        r.attention_mask = List.replicate ((tk.encode p).take c).length 1)) := by
  obtain ⟨hbl, hbm, hble⟩ := tokenize_basic tk c p a r h
  obtain ⟨hne, hc⟩ := tokenize_eq_some_cases tk c p a r h
  refine ⟨hbl, hbm, hble, ?_⟩
  intro last hl
  rcases hc with ⟨happ, hlt, hids, hmask, _⟩ | ⟨happ, hids, hmask, _⟩
  · constructor
    · intro _
      exact ⟨hids, hmask⟩
    · intro hn
      have hp := (eos_appended_iff tk c p a last hl).mp happ
      exact absurd ⟨hp.2.2, hp.1, hp.2.1⟩ hn
  · constructor
    · intro hp
      have := (eos_appended_iff tk c p a last hl).mpr ⟨hp.2.1, hp.2.2, hp.1⟩
      rw [happ] at this
      simp at this
    · intro _
      exact ⟨hids, hmask⟩

/-- Witness for C5 at a concrete input: "abc" under `exTokenizer` with
cutoff 10 and the eos flag set yields `exFullTok`. -/
theorem C5_tokenize_witness :
    tokenize exTokenizer 10 "abc" true = some exFullTok ∧
    (exFullTok.labels = exFullTok.input_ids ∧
     exFullTok.attention_mask.length = exFullTok.input_ids.length ∧
     exFullTok.input_ids.length ≤ 10 ∧
     (∀ last, ((exTokenizer.encode "abc").take 10).getLast? = some last →
       ((true = true ∧ last ≠ exTokenizer.eos_token_id ∧
           ((exTokenizer.encode "abc").take 10).length < 10) →
         exFullTok.input_ids = (exTokenizer.encode "abc").take 10 ++
           [exTokenizer.eos_token_id] ∧
         exFullTok.attention_mask =
           List.replicate ((exTokenizer.encode "abc").take 10).length 1 ++ [1]) ∧
       (¬(true = true ∧ last ≠ exTokenizer.eos_token_id ∧
           ((exTokenizer.encode "abc").take 10).length < 10) →
         exFullTok.input_ids = (exTokenizer.encode "abc").take 10 ∧
         exFullTok.attention_mask =
           List.replicate ((exTokenizer.encode "abc").take 10).length 1))) :=
  ⟨by decide,
   C5_tokenize_truncation_and_eos exTokenizer 10 "abc" true exFullTok (by decide)⟩

/-- Claim C10: `tokenize` reads the last element of the truncated encoding
before examining the append condition, so it has a defined result exactly
when the truncated encoding is non-empty, whatever the `add_eos_token`
flag; on an empty encoding the result is undefined (`none`). -/
theorem C10_tokenize_empty_encoding
    (tk : Tokenizer) (c : Nat) (p : String) (a : Bool) :
    tokenize tk c p a = none ↔ (tk.encode p).take c = [] :=
  tokenize_eq_none_iff tk c p a

/-- Counterexample to claim C3: with cutoff 3 the prefix "abc" tokenizes to
exactly 3 tokens, so no eos token is actually appended, yet with the
`add_eos` flag set the code still subtracts 1: the computed prefix length
is 2, not the 3 the claim requires. -/
theorem C3_prefix_len_counterexample :
    tokenize exTokenizer 3 "abc" true = some exCutoffTok ∧
    eos_appended exTokenizer 3 "abc" true = false ∧
    user_prompt_len exCutoffTok true ≠
      exCutoffTok.input_ids.length -
        (if eos_appended exTokenizer 3 "abc" true = true then 1 else 0) := by
  decide

/-- Claim C3, amended: in `build_example` with masking, the instruction
prefix length equals the token length of the separately tokenized prefix
with 1 subtracted if and only if the caller flag `add_eos` is set — not
if and only if an eos token was actually appended.  (The subtraction does
happen whenever an eos was actually appended, since the append condition
includes the flag; but it also happens when the flag is set and nothing was
appended.) -/
theorem C3_prefix_len_amended (tk : Tokenizer) (c : Nat) (p : String) (a : Bool)
    (tu : TokenizedResult) (h : tokenize tk c p a = some tu) :
    1 ≤ tu.input_ids.length ∧
    user_prompt_len tu a =
      tu.input_ids.length - (if a = true then 1 else 0) ∧
    (eos_appended tk c p a = true →
      user_prompt_len tu a = tu.input_ids.length - 1) := by
  obtain ⟨hne, hc⟩ := tokenize_eq_some_cases tk c p a tu h
  refine ⟨?_, ?_, ?_⟩
  · rcases hc with ⟨_, _, hids, _, _⟩ | ⟨_, hids, _, _⟩
    · rw [hids, List.length_append, List.length_singleton]
      omega
    · rw [hids]
      exact List.length_pos.mpr hne
  · unfold user_prompt_len
    by_cases ha : a = true
    · rw [if_pos ha, if_pos ha]
    · rw [if_neg ha, if_neg ha]
      omega
  · intro happ
    have ha : a = true := by
      unfold eos_appended at happ
      rcases hl : ((tk.encode p).take c).getLast? with _ | last
      · rw [hl] at happ
        simp at happ
      · rw [hl] at happ
        simp only [] at happ
        exact (of_decide_eq_true happ).2.2
    unfold user_prompt_len
    rw [if_pos ha]

/-- Witness for the amended C3 at a concrete input: "abc" at cutoff 10 with
the flag set tokenizes to four tokens (eos appended) and the computed
prefix length is 4 - 1 = 3. -/
theorem C3_prefix_len_witness :
    tokenize exTokenizer 10 "abc" true = some exFullTok ∧
    (1 ≤ exFullTok.input_ids.length ∧
     user_prompt_len exFullTok true =
       exFullTok.input_ids.length - (if (true : Bool) = true then 1 else 0) ∧
     (eos_appended exTokenizer 10 "abc" true = true →
       user_prompt_len exFullTok true = exFullTok.input_ids.length - 1)) :=
  ⟨by decide, C3_prefix_len_amended exTokenizer 10 "abc" true exFullTok (by decide)⟩

/-- Counterexample to claim C1: for the record `exDataPoint` (whose output
"c" is non-empty) under `exTokenizer`, masking with a prefix tokenization
longer than the full-prompt tokenization yields 7 labels against 4
`input_ids` and 4 attention values, so the stated equality of the three
lengths fails. -/
theorem C1_length_invariant_counterexample :
    generate_and_tokenize_prompt exPrompter exTokenizer 10 false false exDataPoint =
      some exDivergentResult ∧
    exDataPoint.output ≠ "" ∧
    exDivergentResult.labels.length ≠ exDivergentResult.input_ids.length ∧
    exDivergentResult.labels.length ≠ exDivergentResult.attention_mask.length := by
  decide

/-- Claim C1, amended: every record processed by the pipeline satisfies
`len(input_ids) = len(attention_mask)` and `len(input_ids) ≤ cutoff_len`;
`len(labels) = len(input_ids)` holds except in the divergent-truncation
case, in which the labels are strictly longer and every label is the
ignore sentinel. -/
theorem C1_length_invariant_amended
    (prompter : String → String → Option String → String)
    (tk : Tokenizer) (c : Nat) (toi a : Bool) (dp : DataPoint) (r : TokenizedResult)
    (h : generate_and_tokenize_prompt prompter tk c toi a dp = some r) :
    r.attention_mask.length = r.input_ids.length ∧
    r.input_ids.length ≤ c ∧
    (r.labels.length = r.input_ids.length ∨
      (r.input_ids.length < r.labels.length ∧ ∀ x ∈ r.labels, x = -100)) := by
  obtain ⟨tf, hf, hcase⟩ := generate_eq_some_cases prompter tk c toi a dp r h
  have hb := tokenize_basic tk c _ true tf hf
  rcases hcase with ⟨htoi, rfl⟩ | ⟨htoi, tu, hu, rfl⟩
  · exact ⟨hb.2.1, hb.2.2, Or.inl (by rw [hb.1])⟩
  · refine ⟨hb.2.1, hb.2.2, ?_⟩
    simp only []
    have hlen : tf.labels.length = tf.input_ids.length := by rw [hb.1]
    by_cases hcmp : user_prompt_len tu a ≤ tf.labels.length
    · left
      rw [List.length_append, List.length_replicate, List.length_drop]
      omega
    · right
      constructor
      · rw [List.length_append, List.length_replicate, List.length_drop]
        omega
      · intro x hx
        rw [List.drop_eq_nil_of_le (by omega), List.append_nil] at hx
        exact List.eq_of_mem_replicate hx

/-- Witness for the amended C1 at a concrete input: the unmasked run of the
pipeline on `exDataPoint`. -/
theorem C1_length_invariant_witness :
    generate_and_tokenize_prompt exPrompter exTokenizer 10 true false exDataPoint =
      some exFullTok ∧
    (exFullTok.attention_mask.length = exFullTok.input_ids.length ∧
     exFullTok.input_ids.length ≤ 10 ∧
     (exFullTok.labels.length = exFullTok.input_ids.length ∨
       (exFullTok.input_ids.length < exFullTok.labels.length ∧
        ∀ x ∈ exFullTok.labels, x = -100))) :=
  ⟨by decide,
   C1_length_invariant_amended exPrompter exTokenizer 10 true false exDataPoint
     exFullTok (by decide)⟩

/-- Claim C2: with masking on (`train_on_inputs = false`), every label
below the computed prefix length is the ignore sentinel and every label at
or above it agrees positionwise with `input_ids`; with masking off
(`train_on_inputs = true`), labels equal `input_ids` exactly. -/
theorem C2_label_masking
    (prompter : String → String → Option String → String)
    (tk : Tokenizer) (c : Nat) (toi a : Bool) (dp : DataPoint) (r : TokenizedResult)
    (h : generate_and_tokenize_prompt prompter tk c toi a dp = some r) :
    (toi = true → r.labels = r.input_ids) ∧
    (toi = false →
      ∀ tu, tokenize tk c (prompter dp.instruction dp.input none) a = some tu →
        (∀ i, i < user_prompt_len tu a → r.labels[i]? = some (-100)) ∧
        (∀ i, user_prompt_len tu a ≤ i → r.labels[i]? = r.input_ids[i]?)) := by
  obtain ⟨tf, hf, hcase⟩ := generate_eq_some_cases prompter tk c toi a dp r h
  have hb := tokenize_basic tk c _ true tf hf
  rcases hcase with ⟨htoi, rfl⟩ | ⟨htoi, tu0, hu0, rfl⟩
  · constructor
    · intro _
      exact hb.1
    · intro hfalse
      rw [htoi] at hfalse
      simp at hfalse
  · constructor
    · intro htrue
      rw [htoi] at htrue
      simp at htrue
    · intro _ tu htu
      rw [hu0] at htu
      injection htu with htu
      subst htu
      constructor
      · intro i hi
        simp only []
        rw [List.getElem?_append]
        rw [if_pos (by simp only [List.length_replicate]; exact hi)]
        rw [List.getElem?_replicate, if_pos hi]
      · intro i hi
        simp only []
        rw [List.getElem?_append]
        rw [if_neg (by simp only [List.length_replicate]; omega)]
        simp only [List.length_replicate]
        rw [List.getElem?_drop]
        have hadd : user_prompt_len tu0 a + (i - user_prompt_len tu0 a) = i := by
          omega
        rw [hadd, hb.1]

/-- Witness for C2 at a concrete input: the masked (and divergent) run of
the pipeline on `exDataPoint`. -/
theorem C2_label_masking_witness :
    generate_and_tokenize_prompt exPrompter exTokenizer 10 false false exDataPoint =
      some exDivergentResult ∧
    ((false = true → exDivergentResult.labels = exDivergentResult.input_ids) ∧
     (false = false →
       ∀ tu, tokenize exTokenizer 10
           (exPrompter exDataPoint.instruction exDataPoint.input none) false =
             some tu →
         (∀ i, i < user_prompt_len tu false →
            exDivergentResult.labels[i]? = some (-100)) ∧
         (∀ i, user_prompt_len tu false ≤ i →
            exDivergentResult.labels[i]? = exDivergentResult.input_ids[i]?))) :=
  ⟨by decide,
   C2_label_masking exPrompter exTokenizer 10 false false exDataPoint
     exDivergentResult (by decide)⟩

/-- Claim C4: when the computed prefix length exceeds the label count of
the full-prompt tokenization, the masking step still succeeds and the
resulting label sequence consists entirely of the ignore sentinel. -/
theorem C4_divergent_masking_degrades
    (prompter : String → String → Option String → String)
    (tk : Tokenizer) (c : Nat) (a : Bool) (dp : DataPoint) (tf tu : TokenizedResult)
    (hf : tokenize tk c (prompter dp.instruction dp.input (some dp.output)) true =
      some tf)
    (hu : tokenize tk c (prompter dp.instruction dp.input none) a = some tu)
    (hdiv : tf.labels.length < user_prompt_len tu a) :
    ∃ r, generate_and_tokenize_prompt prompter tk c false a dp = some r ∧
      r.labels = List.replicate (user_prompt_len tu a) (-100) ∧
      ∀ x ∈ r.labels, x = -100 := by
  refine ⟨_, generate_masked_eq prompter tk c a dp tf tu hf hu, ?_, ?_⟩
  · simp only []
    rw [List.drop_eq_nil_of_le (le_of_lt hdiv), List.append_nil]
  · intro x hx
    simp only [] at hx
    rw [List.drop_eq_nil_of_le (le_of_lt hdiv), List.append_nil] at hx
    exact List.eq_of_mem_replicate hx

/-- Witness for C4 at a concrete input: the divergent run on `exDataPoint`
(4 full-prompt labels, prefix length 7). -/
theorem C4_divergent_masking_witness :
    tokenize exTokenizer 10
      (exPrompter exDataPoint.instruction exDataPoint.input (some exDataPoint.output))
      true = some exFullTok ∧
    tokenize exTokenizer 10
      (exPrompter exDataPoint.instruction exDataPoint.input none) false =
      some exUserTok ∧
    exFullTok.labels.length < user_prompt_len exUserTok false ∧
    (∃ r, generate_and_tokenize_prompt exPrompter exTokenizer 10 false false
        exDataPoint = some r ∧
      r.labels = List.replicate (user_prompt_len exUserTok false) (-100) ∧
      ∀ x ∈ r.labels, x = -100) :=
  ⟨by decide, by decide, by decide,
   C4_divergent_masking_degrades exPrompter exTokenizer 10 false exDataPoint
     exFullTok exUserTok (by decide) (by decide) (by decide)⟩

/-- Claim C9: the pipeline tokenizes the full instruction+input+output
prompt with eos appending hard-wired on (the literal `true` below),
whatever value the caller passes for `add_eos_token`, which only governs the
instruction-only prefix tokenization; the produced `input_ids` and
`attention_mask` are exactly those of that full-prompt tokenization, and
with masking off the whole result is. -/
theorem C9_full_prompt_eos_hardwired
    (prompter : String → String → Option String → String)
    (tk : Tokenizer) (c : Nat) (toi a : Bool) (dp : DataPoint) (r : TokenizedResult)
    (h : generate_and_tokenize_prompt prompter tk c toi a dp = some r) :
    ∃ tf, tokenize tk c (prompter dp.instruction dp.input (some dp.output)) true =
        some tf ∧
      r.input_ids = tf.input_ids ∧ r.attention_mask = tf.attention_mask ∧
      (toi = true → r = tf) := by
  obtain ⟨tf, hf, hcase⟩ := generate_eq_some_cases prompter tk c toi a dp r h
  rcases hcase with ⟨htoi, hr⟩ | ⟨htoi, tu, hu, rfl⟩
  · subst hr
    exact ⟨r, hf, rfl, rfl, fun _ => rfl⟩
  · refine ⟨tf, hf, rfl, rfl, ?_⟩
    intro htrue
    rw [htoi] at htrue
    simp at htrue

/-- Witness for C9 at a concrete input: the masked run on `exDataPoint`
with the caller eos flag clear still carries the eos-terminated
full-prompt ids. -/
theorem C9_full_prompt_eos_witness :
    generate_and_tokenize_prompt exPrompter exTokenizer 10 false false exDataPoint =
      some exDivergentResult ∧
    (∃ tf, tokenize exTokenizer 10
        (exPrompter exDataPoint.instruction exDataPoint.input (some exDataPoint.output))
        true = some tf ∧
      exDivergentResult.input_ids = tf.input_ids ∧
      exDivergentResult.attention_mask = tf.attention_mask ∧
      (false = true → exDivergentResult = tf)) :=
  ⟨by decide,
   C9_full_prompt_eos_hardwired exPrompter exTokenizer 10 false false exDataPoint
     exDivergentResult (by decide)⟩

/-- Claim C6: `select_samples_by_len` retains exactly the samples whose
`input_ids` length lies within the inclusive bounds: every retained sample
is within bounds, the result is a subsequence of the input (so relative
order is preserved and no sample is modified), in-bounds samples are kept
with their multiplicity and out-of-bounds samples do not occur at all. -/
theorem C6_select_samples_pure_filter (dataset : List TokenizedResult)
    (mn mx : Nat) :
    (∀ s ∈ select_samples_by_len dataset mn mx,
       mn ≤ s.input_ids.length ∧ s.input_ids.length ≤ mx) ∧
    (select_samples_by_len dataset mn mx).Sublist dataset ∧
    (∀ s, (mn ≤ s.input_ids.length ∧ s.input_ids.length ≤ mx) →
       (select_samples_by_len dataset mn mx).count s = dataset.count s) ∧
    (∀ s, ¬(mn ≤ s.input_ids.length ∧ s.input_ids.length ≤ mx) →
       (select_samples_by_len dataset mn mx).count s = 0) := by
  unfold select_samples_by_len
  refine ⟨?_, List.filter_sublist dataset, ?_, ?_⟩
  · intro s hs
    exact of_decide_eq_true (List.mem_filter.mp hs).2
  · intro s hs
    rw [count_filter_eq, if_pos (decide_eq_true hs)]
  · intro s hs
    rw [count_filter_eq, if_neg fun hd => hs (of_decide_eq_true hd)]

/-- Claim C7: the training driver computes gradient-accumulation steps as
the floor division `batch_size / micro_batch_size`, floor-divided again by
the world size when the world size differs from 1; at
`batch_size = 128`, `micro_batch_size = 8`, `world_size = 3` the result is
5 and the remainder of 16 / 3 is silently dropped. -/
theorem C7_gradient_accumulation (batch_size micro_batch_size world_size : Nat) :
    gradient_accumulation_steps batch_size micro_batch_size world_size =
      (if world_size = 1 then batch_size / micro_batch_size
       else batch_size / micro_batch_size / world_size) ∧
    gradient_accumulation_steps 128 8 3 = 5 ∧
    gradient_accumulation_steps 128 8 3 * 3 ≠ 128 / 8 := by
  refine ⟨?_, by decide, by decide⟩
  unfold gradient_accumulation_steps
  by_cases h : world_size = 1
  · rw [if_neg (by simp [h]), if_pos h]
  · rw [if_pos h, if_neg h]

/-- Claim C8: when neither `pytorch_model.bin` nor `adapter_model.bin`
exists under the resume path, the checkpoint-resume block loads nothing
(the freshly initialized adapter weights are left unchanged), reports the
missing checkpoint, and does not fail. -/
theorem C8_missing_checkpoint_not_fatal (pathExists : String → Bool)
    (resume_path : String)
    (h1 : pathExists (resume_path ++ "/pytorch_model.bin") = false)
    (h2 : pathExists (resume_path ++ "/adapter_model.bin") = false) :
    (checkpoint_resume pathExists resume_path).loadedFrom = none ∧
    (checkpoint_resume pathExists resume_path).reportedMissing = true ∧
    (checkpoint_resume pathExists resume_path).trainerResumes = false := by
  unfold checkpoint_resume
  rw [h1, h2]
  simp

/-- Witness for C8 at a concrete input: an empty file system and resume
path "ckpt". -/
theorem C8_missing_checkpoint_witness :
    exNoFiles ("ckpt" ++ "/pytorch_model.bin") = false ∧
    exNoFiles ("ckpt" ++ "/adapter_model.bin") = false ∧
    ((checkpoint_resume exNoFiles "ckpt").loadedFrom = none ∧
     (checkpoint_resume exNoFiles "ckpt").reportedMissing = true ∧
     (checkpoint_resume exNoFiles "ckpt").trainerResumes = false) :=
  ⟨rfl, rfl, C8_missing_checkpoint_not_fatal exNoFiles "ckpt" rfl rfl⟩
